import Mathlib

/-!
Shallow embedding of the quote-fetch pipeline of yfinance-rust
(src/core/quotes.rs and src/ticker/quote.rs).

Response bodies are modelled as JSON trees (the pipeline passes bodies
through unmodified; lexical JSON concerns are outside the model).  The
orchestrator is embedded as explicit state passing over the cache store,
together with an event trace recording every cache read, cache write,
network send, credential refresh and attempt start, so that the
attempt-counting and frame claims can be stated about the trace.
-/

namespace YF

/-- JSON values, the model of raw response bodies and of the documents
returned by the raw variant. -/
inductive Json where
  | null : Json
  | bool (b : Bool) : Json
  | num (n : Int) : Json
  | str (s : String) : Json
  | arr (xs : List Json) : Json
  | obj (fields : List (String × Json)) : Json

/-- Cache mode selector.  Modelled from the spec: `CacheMode` lives in
src/core/client.rs, which is not part of the fragment; the spec defines it
as the enumeration \x7bUse, Bypass\x7d. -/
inductive CacheMode where
  | Use : CacheMode
  | Bypass : CacheMode
deriving DecidableEq

/-- A request URL: base endpoint plus ordered query parameters.  This is the
canonical request key. -/
structure Url where
  base : String
  params : List (String × String)
deriving DecidableEq

/-- Rendering of a URL to its canonical string (carried inside errors). -/
def Url.render (u : Url) : String :=
  u.base ++ "?" ++ String.intercalate "&" (u.params.map (fun p => p.1 ++ "=" ++ p.2))

/-- Comma-join of a symbol or field list, as `join(",")` in the source. -/
def commaJoin (xs : List String) : String :=
  String.intercalate "," xs

/-- Request building of `attempt_fetch`: append `symbols`, then `fields`
(only when the list is present and non-empty), then `crumb` (only when
present). -/
def buildUrl (base : Url) (symbols : List String) (fields : Option (List String))
    (crumb : Option String) : Url :=
  let ps0 := [("symbols", commaJoin symbols)]
  let ps1 := ps0 ++ (match fields with
    | some list => if list ≠ [] then [("fields", commaJoin list)] else []
    | none => [])
  let ps2 := ps1 ++ (match crumb with
    | some c => [("crumb", c)]
    | none => [])
  { base := base.base, params := base.params ++ ps2 }

/-- The cache store: an association of canonical keys to stored bodies. -/
def Cache := List (Url × Json)

/-- Cache read: first stored body for the exact canonical key. -/
def cacheGet (cache : Cache) (url : Url) : Option Json :=
  match cache with
  | [] => none
  | (k, b) :: rest => if k = url then some b else cacheGet rest url

/-- Cache write: stores the body under the canonical key. -/
def cachePut (cache : Cache) (url : Url) (body : Json) : Cache :=
  (url, body) :: cache

/-- The error taxonomy of the pipeline (YfError).  `transportFailure` stands
for a transport-level error of the sender or body reader, which the
orchestrator propagates unchanged. -/
inductive YfError where
  | NotFound (url : String) : YfError
  | RateLimited (url : String) : YfError
  | ServerError (status : Nat) (url : String) : YfError
  | Status (status : Nat) (url : String) : YfError
  | Auth (msg : String) : YfError
  | MissingData (msg : String) : YfError
  | Decode (msg : String) : YfError
  | transportFailure (msg : String) : YfError
deriving DecidableEq

/-- Observable events of one fetch, in order. -/
inductive Event where
  | attempt (crumb : Option String) : Event
  | cacheRead (key : Url) (hit : Bool) : Event
  | send (url : Url) : Event
  | cachePut (key : Url) : Event
  | ensureCredentials : Event
  | crumbRead : Event
deriving DecidableEq

/-- The external collaborators of one fetch: the quote endpoint, the
transport sender (status and body per request URL, or a transport error),
and the credential manager (outcome of ensure_credentials and the crumb
readable afterwards). -/
structure Env where
  base : Url
  network : Url → Except String (Nat × Json)
  ensureCredentials : Except YfError Unit
  crumb : Option String

/-- Result triple of one attempt or of the whole body fetch: outcome, final
cache state, event trace. -/
def FetchOut (α : Type) := Except YfError α × Cache × List Event

/-- Prefix extra events onto an attempt result. -/
def withEvents {α : Type} (evs : List Event) (r : FetchOut α) : FetchOut α :=
  (r.1, r.2.1, evs ++ r.2.2)

/-- Network phase of `attempt_fetch` (after a cache miss or with caching
disabled): send, then on 2xx write back unless Bypass, otherwise surface the
status code for the caller's status check. -/
def netPhase (env : Env) (cache : Cache) (cacheMode : CacheMode) (url : Url) :
    FetchOut (Json × Url × Option Nat) :=
  match env.network url with
  | Except.error e => (Except.error (YfError.transportFailure e), cache, [Event.send url])
  | Except.ok (status, body) =>
    if 200 ≤ status ∧ status ≤ 299 then
      if cacheMode ≠ CacheMode.Bypass then
        (Except.ok (body, url, none), cachePut cache url body,
          [Event.send url, Event.cachePut url])
      else
        (Except.ok (body, url, none), cache, [Event.send url])
    else
      (Except.ok (body, url, some status), cache, [Event.send url])

/-- `attempt_fetch` of src/core/quotes.rs: build the canonical request; under
cache mode Use consult the cache first and return a hit immediately;
otherwise go to the network. -/
def attempt_fetch (env : Env) (cache : Cache) (symbols : List String)
    (fields : Option (List String)) (crumb : Option String) (cacheMode : CacheMode) :
    FetchOut (Json × Url × Option Nat) :=
  let url := buildUrl env.base symbols fields crumb
  if cacheMode = CacheMode.Use then
    match cacheGet cache url with
    | some body =>
      (Except.ok (body, url, none), cache, [Event.attempt crumb, Event.cacheRead url true])
    | none =>
      withEvents [Event.attempt crumb, Event.cacheRead url false]
        (netPhase env cache cacheMode url)
  else
    withEvents [Event.attempt crumb] (netPhase env cache cacheMode url)

/-- `fetch_v7_quote_body` of src/core/quotes.rs: anonymous attempt; on
401/403 ensure credentials, read the crumb and retry once with it; classify
any terminal non-2xx status with the inline status match (duplicated at both
occurrences, as in the source). -/
def fetch_v7_quote_body (env : Env) (cache : Cache) (symbols : List String)
    (fields : Option (List String)) (cacheMode : CacheMode) : FetchOut Json :=
  match attempt_fetch env cache symbols fields none cacheMode with
  | (Except.error e, c, tr) => (Except.error e, c, tr)
  | (Except.ok (body, url, maybeStatus), c, tr) =>
    match maybeStatus with
    | none => (Except.ok body, c, tr)
    | some statusCode =>
      if statusCode = 401 ∨ statusCode = 403 then
        match env.ensureCredentials with
        | Except.error e => (Except.error e, c, tr ++ [Event.ensureCredentials])
        | Except.ok _ =>
          match env.crumb with
          | none =>
            (Except.error (YfError.Auth "Crumb is not set after ensuring credentials"), c,
              tr ++ [Event.ensureCredentials, Event.crumbRead])
          | some crumb =>
            match attempt_fetch env c symbols fields (some crumb) cacheMode with
            | (Except.error e, c2, tr2) =>
              (Except.error e, c2, tr ++ [Event.ensureCredentials, Event.crumbRead] ++ tr2)
            | (Except.ok (body2, url2, maybeStatus2), c2, tr2) =>
              match maybeStatus2 with
              | none =>
                (Except.ok body2, c2, tr ++ [Event.ensureCredentials, Event.crumbRead] ++ tr2)
              | some statusCode2 =>
                (Except.error
                  (if statusCode2 = 404 then YfError.NotFound url2.render
                   else if statusCode2 = 429 then YfError.RateLimited url2.render
                   else if 500 ≤ statusCode2 ∧ statusCode2 ≤ 599 then
                     YfError.ServerError statusCode2 url2.render
                   else YfError.Status statusCode2 url2.render), c2,
                  tr ++ [Event.ensureCredentials, Event.crumbRead] ++ tr2)
      else
        (Except.error
          (if statusCode = 404 then YfError.NotFound url.render
           else if statusCode = 429 then YfError.RateLimited url.render
           else if 500 ≤ statusCode ∧ statusCode ≤ 599 then
             YfError.ServerError statusCode url.render
           else YfError.Status statusCode url.render), c, tr)

/-- Field lookup on a JSON object (serde_json `Value::get`): some value only
when the document is an object carrying the key. -/
def jsonGet (v : Json) (key : String) : Option Json :=
  match v with
  | Json.obj fields => lookupField fields key
  | _ => none
where
  lookupField : List (String × Json) → String → Option Json
  | [], _ => none
  | (k, x) :: rest, key => if k = key then some x else lookupField rest key

/-- `Value::as_array`. -/
def jsonAsArray (v : Json) : Option (List Json) :=
  match v with
  | Json.arr xs => some xs
  | _ => none

/-- Wire record of the v7 quote API (V7QuoteNode): every field optional. -/
structure V7QuoteNode where
  symbol : Option String
  short_name : Option String
  regular_market_price : Option Int
  regular_market_previous_close : Option Int
  currency : Option String
  full_exchange_name : Option String
  exchange : Option String
  market : Option String
  market_cap_figure_exchange : Option String
  market_state : Option String
deriving DecidableEq

/-- V7QuoteResponse: optional result array, optional (unexamined) error. -/
structure V7QuoteResponse where
  result : Option (List V7QuoteNode)
  error : Option Json

/-- V7Envelope: optional quoteResponse. -/
structure V7Envelope where
  quote_response : Option V7QuoteResponse

/-- serde deserialization of an `Option<String>` struct field: missing or
null gives none, a string gives it, anything else is a type error. -/
def deserOptString (fields : List (String × Json)) (key : String) :
    Except String (Option String) :=
  match jsonGet.lookupField fields key with
  | none => Except.ok none
  | some Json.null => Except.ok none
  | some (Json.str s) => Except.ok (some s)
  | some _ => Except.error ("invalid type for field " ++ key)

/-- serde deserialization of an `Option<f64>` struct field (numbers are
modelled as integers; the pipeline never computes with them). -/
def deserOptNum (fields : List (String × Json)) (key : String) :
    Except String (Option Int) :=
  match jsonGet.lookupField fields key with
  | none => Except.ok none
  | some Json.null => Except.ok none
  | some (Json.num n) => Except.ok (some n)
  | some _ => Except.error ("invalid type for field " ++ key)

/-- serde deserialization of one V7QuoteNode, with the renamed wire keys of
the source. -/
def deserNode (v : Json) : Except String V7QuoteNode :=
  match v with
  | Json.obj fields => do
    let symbol ← deserOptString fields "symbol"
    let short_name ← deserOptString fields "shortName"
    let regular_market_price ← deserOptNum fields "regularMarketPrice"
    let regular_market_previous_close ← deserOptNum fields "regularMarketPreviousClose"
    let currency ← deserOptString fields "currency"
    let full_exchange_name ← deserOptString fields "fullExchangeName"
    let exchange ← deserOptString fields "exchange"
    let market ← deserOptString fields "market"
    let market_cap_figure_exchange ← deserOptString fields "marketCapFigureExchange"
    let market_state ← deserOptString fields "marketState"
    Except.ok ⟨symbol, short_name, regular_market_price, regular_market_previous_close,
      currency, full_exchange_name, exchange, market, market_cap_figure_exchange,
      market_state⟩
  | _ => Except.error "invalid type: expected quote object"

/-- serde deserialization of every node of a result array. -/
def deserNodes : List Json → Except String (List V7QuoteNode)
  | [] => Except.ok []
  | v :: rest => do
    let n ← deserNode v
    let ns ← deserNodes rest
    Except.ok (n :: ns)

/-- serde deserialization of the optional `result` field of V7QuoteResponse. -/
def deserResultField (fields : List (String × Json)) :
    Except String (Option (List V7QuoteNode)) :=
  match jsonGet.lookupField fields "result" with
  | none => Except.ok none
  | some Json.null => Except.ok none
  | some (Json.arr xs) => do
    let ns ← deserNodes xs
    Except.ok (some ns)
  | some _ => Except.error "invalid type for field result"

/-- serde deserialization of V7Envelope from a JSON document. -/
def deserEnvelope (v : Json) : Except String V7Envelope :=
  match v with
  | Json.obj fields =>
    match jsonGet.lookupField fields "quoteResponse" with
    | none => Except.ok ⟨none⟩
    | some Json.null => Except.ok ⟨none⟩
    | some (Json.obj qrFields) => do
      let result ← deserResultField qrFields
      Except.ok ⟨some ⟨result, jsonGet.lookupField qrFields "error"⟩⟩
    | some _ => Except.error "invalid type for field quoteResponse"
  | _ => Except.error "invalid type: expected envelope object"

/-- `fetch_v7_quotes` of src/core/quotes.rs: fetch the body, deserialize the
envelope, and return `quote_response.and_then(result).unwrap_or_default()`. -/
def fetch_v7_quotes (env : Env) (cache : Cache) (symbols : List String)
    (fields : Option (List String)) (cacheMode : CacheMode) :
    FetchOut (List V7QuoteNode) :=
  match fetch_v7_quote_body env cache symbols fields cacheMode with
  | (Except.error e, c, tr) => (Except.error e, c, tr)
  | (Except.ok body, c, tr) =>
    match deserEnvelope body with
    | Except.error m => (Except.error (YfError.Decode m), c, tr)
    | Except.ok envl =>
      (Except.ok ((envl.quote_response.bind (fun qr => qr.result)).getD []), c, tr)

/-- `fetch_v7_quotes_raw` of src/core/quotes.rs: fetch the body and navigate
`quoteResponse.result` structurally, defaulting to the empty array. -/
def fetch_v7_quotes_raw (env : Env) (cache : Cache) (symbols : List String)
    (fields : Option (List String)) (cacheMode : CacheMode) :
    FetchOut (List Json) :=
  match fetch_v7_quote_body env cache symbols fields cacheMode with
  | (Except.error e, c, tr) => (Except.error e, c, tr)
  | (Except.ok body, c, tr) =>
    (Except.ok
      (((jsonGet body "quoteResponse").bind (fun qr => jsonGet qr "result")
        |>.bind jsonAsArray).getD []), c, tr)

/-- Currency-tagged monetary value.  Modelled from the spec: the Money type
and `f64_to_money_with_currency_str` live in src/core/conversions.rs, which
is not part of the fragment; the spec describes the value as amount plus
optional currency code. -/
structure Money where
  amount : Int
  currency : Option String
deriving DecidableEq

/-- Modelled from the spec: `f64_to_money_with_currency_str` of
src/core/conversions.rs tags an amount with the wire record's currency. -/
def f64_to_money_with_currency_str (amount : Int) (currency : Option String) : Money :=
  ⟨amount, currency⟩

/-- Modelled from the spec: `string_to_exchange` of src/core/conversions.rs
normalizes one exchange-name string into the resolved exchange identifier.
The spec does not give its table, and no claim depends on it, so it is
modelled as the identity embedding on the selected string. -/
def string_to_exchange (s : Option String) : Option String := s

/-- Modelled from the spec: market-state parsing (`s.parse().ok()` into the
external paft MarketState) keeps the recognized state; the spec gives no
table, so it is modelled as accepting every string. -/
def parseMarketState (s : String) : Option String := some s

/-- Quote domain record (paft Quote, as populated by the conversion). -/
structure Quote where
  symbol : String
  shortname : Option String
  price : Option Money
  previous_close : Option Money
  exchange : Option String
  market_state : Option String
deriving DecidableEq

/-- `From<V7QuoteNode> for Quote` of src/core/quotes.rs: defaulted symbol,
currency-tagged prices, exchange resolved through the `.or` chain, parsed
market state. -/
def quoteFromNode (n : V7QuoteNode) : Quote :=
  { symbol := n.symbol.getD ""
    shortname := n.short_name
    price := n.regular_market_price.map
      (fun price => f64_to_money_with_currency_str price n.currency)
    previous_close := n.regular_market_previous_close.map
      (fun price => f64_to_money_with_currency_str price n.currency)
    exchange := string_to_exchange
      (((n.full_exchange_name.or n.exchange).or n.market).or n.market_cap_figure_exchange)
    market_state := n.market_state.bind parseMarketState }

/-- `fetch_quote` of src/ticker/quote.rs: fetch one symbol, `pop()` the last
result or fail with MissingData naming the symbol, convert to the domain
record. -/
def fetch_quote (env : Env) (cache : Cache) (symbol : String) (cacheMode : CacheMode) :
    FetchOut Quote :=
  match fetch_v7_quotes env cache [symbol] none cacheMode with
  | (Except.error e, c, tr) => (Except.error e, c, tr)
  | (Except.ok results, c, tr) =>
    match results.getLast? with
    | none =>
      (Except.error (YfError.MissingData ("no quote result found for symbol " ++ symbol)),
        c, tr)
    | some r => (Except.ok (quoteFromNode r), c, tr)

/-- `fetch_quote_raw` of src/ticker/quote.rs: same, over raw documents. -/
def fetch_quote_raw (env : Env) (cache : Cache) (symbol : String)
    (fields : Option (List String)) (cacheMode : CacheMode) : FetchOut Json :=
  match fetch_v7_quotes_raw env cache [symbol] fields cacheMode with
  | (Except.error e, c, tr) => (Except.error e, c, tr)
  | (Except.ok results, c, tr) =>
    match results.getLast? with
    | none =>
      (Except.error (YfError.MissingData ("no quote result found for symbol " ++ symbol)),
        c, tr)
    | some r => (Except.ok r, c, tr)

/-! Section: Spec-side definitions (for refinement comparison) -/

/-- The spec's status-to-error mapping: 404 → NotFound, 429 → RateLimited,
500–599 → ServerError(status), any other non-2xx → Status(status), each
carrying the canonical URL string. -/
def statusErrorSpec (status : Nat) (url : String) : YfError :=
  if status = 404 then YfError.NotFound url
  else if status = 429 then YfError.RateLimited url
  else if 500 ≤ status ∧ status ≤ 599 then YfError.ServerError status url
  else YfError.Status status url

/-- The spec's exchange resolution: first present value among full exchange
name, short exchange code, market identifier, market-cap-figure exchange. -/
def exchangeResolutionSpec (n : V7QuoteNode) : Option String :=
  match n.full_exchange_name with
  | some v => some v
  | none =>
    match n.exchange with
    | some v => some v
    | none =>
      match n.market with
      | some v => some v
      | none => n.market_cap_figure_exchange

/-! Section: Concrete fixtures (for witnesses and counterexamples) -/

/-- A short base endpoint. -/
def baseFix : Url := ⟨"q", []⟩

/-- Canonical anonymous request URL for the symbol set [AAPL]. -/
def urlAnonFix : Url := buildUrl baseFix ["AAPL"] none none

/-- Canonical authenticated request URL for the symbol set [AAPL]. -/
def urlCrumbFix : Url := buildUrl baseFix ["AAPL"] none (some "abc")

/-- Every request is answered 401; credentials refresh fine. -/
def envAuthFix : Env :=
  ⟨baseFix, fun _ => Except.ok (401, Json.null), Except.ok (), some "abc"⟩

/-- Every request is answered 403; the crumb stays absent after refresh. -/
def envNoCrumbFix : Env :=
  ⟨baseFix, fun _ => Except.ok (403, Json.null), Except.ok (), none⟩

/-- Every request is answered 500. -/
def envErr500Fix : Env :=
  ⟨baseFix, fun _ => Except.ok (500, Json.null), Except.ok (), none⟩

/-- The anonymous request is answered 401, the authenticated one 418. -/
def envRetry418Fix : Env :=
  ⟨baseFix,
   fun u => if u = urlCrumbFix then Except.ok (418, Json.null)
            else Except.ok (401, Json.null),
   Except.ok (), some "abc"⟩

/-- A cache holding a stored body for the anonymous canonical key. -/
def cacheHitFix : Cache := [(urlAnonFix, Json.str "CACHED")]

/-- A cache holding a stored body for the crumb-bearing canonical key. -/
def cacheCrumbFix : Cache := [(urlCrumbFix, Json.str "CACHED")]

/-- One wire record as a JSON document. -/
def nodeJsonFix : Json := Json.obj [("symbol", Json.str "AAPL")]

/-- A second wire record as a JSON document. -/
def nodeJson2Fix : Json := Json.obj [("symbol", Json.str "MSFT")]

/-- The typed record deserialized from `nodeJsonFix`. -/
def nodeFix : V7QuoteNode :=
  ⟨some "AAPL", none, none, none, none, none, none, none, none, none⟩

/-- The typed record deserialized from `nodeJson2Fix`. -/
def node2Fix : V7QuoteNode :=
  ⟨some "MSFT", none, none, none, none, none, none, none, none, none⟩

/-- A 2xx body with one record in quoteResponse.result. -/
def bodyOkFix : Json :=
  Json.obj [("quoteResponse",
    Json.obj [("result", Json.arr [nodeJsonFix]), ("error", Json.null)])]

/-- A 2xx body with no quoteResponse envelope at all. -/
def bodyEmptyEnvFix : Json := Json.obj []

/-- A 2xx body with an empty result array. -/
def bodyEmptyResFix : Json :=
  Json.obj [("quoteResponse",
    Json.obj [("result", Json.arr []), ("error", Json.null)])]

/-- A 2xx body with two records in quoteResponse.result. -/
def bodyTwoFix : Json :=
  Json.obj [("quoteResponse",
    Json.obj [("result", Json.arr [nodeJsonFix, nodeJson2Fix]), ("error", Json.null)])]

/-- Answers 200 with `bodyOkFix`. -/
def envOkFix : Env := ⟨baseFix, fun _ => Except.ok (200, bodyOkFix), Except.ok (), none⟩

/-- Answers 200 with `bodyEmptyEnvFix`. -/
def envEmptyEnvFix : Env :=
  ⟨baseFix, fun _ => Except.ok (200, bodyEmptyEnvFix), Except.ok (), none⟩

/-- Answers 200 with `bodyEmptyResFix`. -/
def envEmptyResFix : Env :=
  ⟨baseFix, fun _ => Except.ok (200, bodyEmptyResFix), Except.ok (), none⟩

/-- Answers 200 with `bodyTwoFix`. -/
def envTwoFix : Env := ⟨baseFix, fun _ => Except.ok (200, bodyTwoFix), Except.ok (), none⟩

/-- A wire record carrying both a full exchange name and a short exchange
code. -/
def nodeExchFix : V7QuoteNode :=
  ⟨none, none, none, none, none, some "NasdaqGS", some "NMS", none, none, none⟩

/-! Section: Trace observations -/

/-- Attempt-start events (each call of `attempt_fetch`). -/
def isAttemptEv : Event → Bool
  | Event.attempt _ => true
  | _ => false

/-- Authenticated attempt-start events (a crumb attached). -/
def isAuthAttemptEv : Event → Bool
  | Event.attempt (some _) => true
  | _ => false

/-- Network sends. -/
def isSendEv : Event → Bool
  | Event.send _ => true
  | _ => false

/-- Credential-refresh invocations. -/
def isEnsureEv : Event → Bool
  | Event.ensureCredentials => true
  | _ => false

/-- Cache reads. -/
def isCacheReadEv : Event → Bool
  | Event.cacheRead _ _ => true
  | _ => false

/-- Cache writes. -/
def isCachePutEv : Event → Bool
  | Event.cachePut _ => true
  | _ => false

/-- Number of attempts started in a trace. -/
def countAttempts (tr : List Event) : Nat := tr.countP isAttemptEv

/-- Number of authenticated attempts started in a trace. -/
def countAuthAttempts (tr : List Event) : Nat := tr.countP isAuthAttemptEv

/-- Number of network sends in a trace. -/
def countSends (tr : List Event) : Nat := tr.countP isSendEv

/-- Number of credential-refresh invocations in a trace. -/
def countEnsures (tr : List Event) : Nat := tr.countP isEnsureEv

/-- Number of cache reads in a trace. -/
def countCacheReads (tr : List Event) : Nat := tr.countP isCacheReadEv

/-- Number of cache writes in a trace. -/
def countCachePuts (tr : List Event) : Nat := tr.countP isCachePutEv

@[simp] lemma countAttempts_nil : countAttempts [] = 0 := rfl

@[simp] lemma countAuthAttempts_nil : countAuthAttempts [] = 0 := rfl

@[simp] lemma countSends_nil : countSends [] = 0 := rfl

@[simp] lemma countEnsures_nil : countEnsures [] = 0 := rfl

@[simp] lemma countCacheReads_nil : countCacheReads [] = 0 := rfl

@[simp] lemma countCachePuts_nil : countCachePuts [] = 0 := rfl

@[simp] lemma countAttempts_cons (e : Event) (l : List Event) :
    countAttempts (e :: l) = countAttempts l + (if isAttemptEv e then 1 else 0) := by
  simp [countAttempts, List.countP_cons]

@[simp] lemma countAuthAttempts_cons (e : Event) (l : List Event) :
    countAuthAttempts (e :: l) = countAuthAttempts l + (if isAuthAttemptEv e then 1 else 0) := by
  simp [countAuthAttempts, List.countP_cons]

@[simp] lemma countSends_cons (e : Event) (l : List Event) :
    countSends (e :: l) = countSends l + (if isSendEv e then 1 else 0) := by
  simp [countSends, List.countP_cons]

@[simp] lemma countEnsures_cons (e : Event) (l : List Event) :
    countEnsures (e :: l) = countEnsures l + (if isEnsureEv e then 1 else 0) := by
  simp [countEnsures, List.countP_cons]

@[simp] lemma countCacheReads_cons (e : Event) (l : List Event) :
    countCacheReads (e :: l) = countCacheReads l + (if isCacheReadEv e then 1 else 0) := by
  simp [countCacheReads, List.countP_cons]

@[simp] lemma countCachePuts_cons (e : Event) (l : List Event) :
    countCachePuts (e :: l) = countCachePuts l + (if isCachePutEv e then 1 else 0) := by
  simp [countCachePuts, List.countP_cons]

@[simp] lemma countAttempts_append (l1 l2 : List Event) :
    countAttempts (l1 ++ l2) = countAttempts l1 + countAttempts l2 := by
  simp [countAttempts, List.countP_append]

@[simp] lemma countAuthAttempts_append (l1 l2 : List Event) :
    countAuthAttempts (l1 ++ l2) = countAuthAttempts l1 + countAuthAttempts l2 := by
  simp [countAuthAttempts, List.countP_append]

@[simp] lemma countSends_append (l1 l2 : List Event) :
    countSends (l1 ++ l2) = countSends l1 + countSends l2 := by
  simp [countSends, List.countP_append]

@[simp] lemma countEnsures_append (l1 l2 : List Event) :
    countEnsures (l1 ++ l2) = countEnsures l1 + countEnsures l2 := by
  simp [countEnsures, List.countP_append]

@[simp] lemma countCacheReads_append (l1 l2 : List Event) :
    countCacheReads (l1 ++ l2) = countCacheReads l1 + countCacheReads l2 := by
  simp [countCacheReads, List.countP_append]

@[simp] lemma countCachePuts_append (l1 l2 : List Event) :
    countCachePuts (l1 ++ l2) = countCachePuts l1 + countCachePuts l2 := by
  simp [countCachePuts, List.countP_append]

/-! Section: Structural lemmas about one attempt -/

lemma netPhase_trace (env : Env) (cache : Cache) (mode : CacheMode) (url : Url) :
    (netPhase env cache mode url).2.2 = [Event.send url] ∨
      (netPhase env cache mode url).2.2 = [Event.send url, Event.cachePut url] := by
  unfold netPhase
  rcases h : env.network url with e | p
  · simp
  · rcases p with ⟨st, body⟩
    by_cases h2 : 200 ≤ st ∧ st ≤ 299 <;> by_cases h3 : mode ≠ CacheMode.Bypass <;>
      simp [h2, h3]

lemma attempt_fetch_trace (env : Env) (cache : Cache) (symbols : List String)
    (fields : Option (List String)) (crumb : Option String) (mode : CacheMode) :
    ∃ rest,
      (attempt_fetch env cache symbols fields crumb mode).2.2 = Event.attempt crumb :: rest ∧
      (rest = [Event.cacheRead (buildUrl env.base symbols fields crumb) true] ∨
       rest = [Event.cacheRead (buildUrl env.base symbols fields crumb) false] ++
         (netPhase env cache mode (buildUrl env.base symbols fields crumb)).2.2 ∨
       rest = (netPhase env cache mode (buildUrl env.base symbols fields crumb)).2.2) := by
  unfold attempt_fetch
  by_cases h : mode = CacheMode.Use
  · rcases hc : cacheGet cache (buildUrl env.base symbols fields crumb) with _ | b
    · exact ⟨_, by simp [h, hc, withEvents], Or.inr (Or.inl rfl)⟩
    · exact ⟨_, by simp [h, hc], Or.inl rfl⟩
  · exact ⟨_, by simp [h, withEvents], Or.inr (Or.inr rfl)⟩

lemma attempt_fetch_counts (env : Env) (cache : Cache) (symbols : List String)
    (fields : Option (List String)) (crumb : Option String) (mode : CacheMode) :
    countAttempts (attempt_fetch env cache symbols fields crumb mode).2.2 = 1 ∧
    countEnsures (attempt_fetch env cache symbols fields crumb mode).2.2 = 0 ∧
    countSends (attempt_fetch env cache symbols fields crumb mode).2.2 ≤ 1 ∧
    countAuthAttempts (attempt_fetch env cache symbols fields crumb mode).2.2 =
      (if crumb.isSome then 1 else 0) := by
  obtain ⟨rest, hev, hrest⟩ :=
    attempt_fetch_trace env cache symbols fields crumb mode
  have hnet := netPhase_trace env cache mode (buildUrl env.base symbols fields crumb)
  rw [hev]
  rcases hrest with h | h | h <;> subst h <;>
    rcases hnet with h2 | h2 <;>
    rcases crumb with _ | c <;>
    simp [h2, isAttemptEv, isEnsureEv, isSendEv, isAuthAttemptEv]

lemma netPhase_bypass_frame (env : Env) (cache : Cache) (url : Url) :
    (netPhase env cache CacheMode.Bypass url).2.1 = cache ∧
    countCacheReads (netPhase env cache CacheMode.Bypass url).2.2 = 0 ∧
    countCachePuts (netPhase env cache CacheMode.Bypass url).2.2 = 0 := by
  unfold netPhase
  rcases h : env.network url with e | p
  · simp [countCacheReads, countCachePuts, List.countP, List.countP.go, isCacheReadEv,
      isCachePutEv]
  · rcases p with ⟨st, body⟩
    by_cases h2 : 200 ≤ st ∧ st ≤ 299 <;>
      simp [h2, countCacheReads, countCachePuts, List.countP, List.countP.go,
        isCacheReadEv, isCachePutEv]

lemma attempt_fetch_bypass_frame (env : Env) (cache : Cache) (symbols : List String)
    (fields : Option (List String)) (crumb : Option String) :
    (attempt_fetch env cache symbols fields crumb CacheMode.Bypass).2.1 = cache ∧
    countCacheReads (attempt_fetch env cache symbols fields crumb CacheMode.Bypass).2.2 = 0 ∧
    countCachePuts (attempt_fetch env cache symbols fields crumb CacheMode.Bypass).2.2 = 0 := by
  have hnet := netPhase_bypass_frame env cache (buildUrl env.base symbols fields crumb)
  have hb : attempt_fetch env cache symbols fields crumb CacheMode.Bypass =
      withEvents [Event.attempt crumb]
        (netPhase env cache CacheMode.Bypass (buildUrl env.base symbols fields crumb)) := by
    unfold attempt_fetch
    simp
  rw [hb]
  unfold withEvents
  exact ⟨hnet.1, by simp [isCacheReadEv, hnet.2.1], by simp [isCachePutEv, hnet.2.2]⟩

lemma netPhase_ok_url {env : Env} {cache : Cache} {mode : CacheMode} {url u : Url}
    {body : Json} {st : Option Nat}
    (h : (netPhase env cache mode url).1 = Except.ok (body, u, st)) : u = url := by
  unfold netPhase at h
  rcases hn : env.network url with e | p
  · rw [hn] at h
    simp at h
  · rcases p with ⟨s0, b0⟩
    rw [hn] at h
    by_cases h2 : 200 ≤ s0 ∧ s0 ≤ 299
    · by_cases h3 : mode = CacheMode.Bypass
      · simp [h2, h3] at h
        obtain ⟨-, h, -⟩ := h
        exact h.symm
      · simp [h2, h3] at h
        obtain ⟨-, h, -⟩ := h
        exact h.symm
    · simp [h2] at h
      obtain ⟨-, h, -⟩ := h
      exact h.symm

lemma attempt_fetch_ok_url {env : Env} {cache : Cache} {symbols : List String}
    {fields : Option (List String)} {crumb : Option String} {mode : CacheMode}
    {body : Json} {u : Url} {st : Option Nat}
    (h : (attempt_fetch env cache symbols fields crumb mode).1 = Except.ok (body, u, st)) :
    u = buildUrl env.base symbols fields crumb := by
  unfold attempt_fetch at h
  by_cases hm : mode = CacheMode.Use
  · rw [if_pos hm] at h
    rcases hc : cacheGet cache (buildUrl env.base symbols fields crumb) with _ | b0 <;>
      rw [hc] at h
    · simp only [withEvents] at h
      exact netPhase_ok_url h
    · simp at h
      obtain ⟨-, h, -⟩ := h
      exact h.symm
  · rw [if_neg hm] at h
    simp only [withEvents] at h
    exact netPhase_ok_url h

/-! Section: Characterization of the body fetch by attempt outcomes -/

lemma fetch_body_first_err {env : Env} {cache : Cache} {symbols : List String}
    {fields : Option (List String)} {mode : CacheMode} {e : YfError} {c1 : Cache}
    {tr1 : List Event}
    (h : attempt_fetch env cache symbols fields none mode = (Except.error e, c1, tr1)) :
    fetch_v7_quote_body env cache symbols fields mode = (Except.error e, c1, tr1) := by
  unfold fetch_v7_quote_body
  rw [h]

lemma fetch_body_first_success {env : Env} {cache : Cache} {symbols : List String}
    {fields : Option (List String)} {mode : CacheMode} {body : Json} {url : Url}
    {c1 : Cache} {tr1 : List Event}
    (h : attempt_fetch env cache symbols fields none mode =
      (Except.ok (body, url, none), c1, tr1)) :
    fetch_v7_quote_body env cache symbols fields mode = (Except.ok body, c1, tr1) := by
  unfold fetch_v7_quote_body
  rw [h]

lemma fetch_body_first_status_terminal {env : Env} {cache : Cache} {symbols : List String}
    {fields : Option (List String)} {mode : CacheMode} {body : Json} {url : Url} {s : Nat}
    {c1 : Cache} {tr1 : List Event}
    (h : attempt_fetch env cache symbols fields none mode =
      (Except.ok (body, url, some s), c1, tr1))
    (hs : ¬(s = 401 ∨ s = 403)) :
    fetch_v7_quote_body env cache symbols fields mode =
      (Except.error (statusErrorSpec s url.render), c1, tr1) := by
  unfold fetch_v7_quote_body
  rw [h]
  simp only [if_neg hs]
  rfl

lemma fetch_body_ensure_err {env : Env} {cache : Cache} {symbols : List String}
    {fields : Option (List String)} {mode : CacheMode} {body : Json} {url : Url} {s : Nat}
    {c1 : Cache} {tr1 : List Event} {e : YfError}
    (h : attempt_fetch env cache symbols fields none mode =
      (Except.ok (body, url, some s), c1, tr1))
    (hs : s = 401 ∨ s = 403)
    (hcreds : env.ensureCredentials = Except.error e) :
    fetch_v7_quote_body env cache symbols fields mode =
      (Except.error e, c1, tr1 ++ [Event.ensureCredentials]) := by
  unfold fetch_v7_quote_body
  rw [h]
  simp only [if_pos hs, hcreds]

lemma fetch_body_crumb_absent {env : Env} {cache : Cache} {symbols : List String}
    {fields : Option (List String)} {mode : CacheMode} {body : Json} {url : Url} {s : Nat}
    {c1 : Cache} {tr1 : List Event}
    (h : attempt_fetch env cache symbols fields none mode =
      (Except.ok (body, url, some s), c1, tr1))
    (hs : s = 401 ∨ s = 403)
    (hcreds : env.ensureCredentials = Except.ok ())
    (hcrumb : env.crumb = none) :
    fetch_v7_quote_body env cache symbols fields mode =
      (Except.error (YfError.Auth "Crumb is not set after ensuring credentials"), c1,
        tr1 ++ [Event.ensureCredentials, Event.crumbRead]) := by
  unfold fetch_v7_quote_body
  rw [h]
  simp only [if_pos hs, hcreds, hcrumb]

lemma fetch_body_retry_err {env : Env} {cache : Cache} {symbols : List String}
    {fields : Option (List String)} {mode : CacheMode} {body : Json} {url : Url} {s : Nat}
    {c1 : Cache} {tr1 : List Event} {cv : String} {e : YfError} {c2 : Cache}
    {tr2 : List Event}
    (h : attempt_fetch env cache symbols fields none mode =
      (Except.ok (body, url, some s), c1, tr1))
    (hs : s = 401 ∨ s = 403)
    (hcreds : env.ensureCredentials = Except.ok ())
    (hcrumb : env.crumb = some cv)
    (h2 : attempt_fetch env c1 symbols fields (some cv) mode = (Except.error e, c2, tr2)) :
    fetch_v7_quote_body env cache symbols fields mode =
      (Except.error e, c2,
        tr1 ++ [Event.ensureCredentials, Event.crumbRead] ++ tr2) := by
  unfold fetch_v7_quote_body
  rw [h]
  simp only [if_pos hs, hcreds, hcrumb, h2]

lemma fetch_body_retry_success {env : Env} {cache : Cache} {symbols : List String}
    {fields : Option (List String)} {mode : CacheMode} {body : Json} {url : Url} {s : Nat}
    {c1 : Cache} {tr1 : List Event} {cv : String} {b2 : Json} {u2 : Url} {c2 : Cache}
    {tr2 : List Event}
    (h : attempt_fetch env cache symbols fields none mode =
      (Except.ok (body, url, some s), c1, tr1))
    (hs : s = 401 ∨ s = 403)
    (hcreds : env.ensureCredentials = Except.ok ())
    (hcrumb : env.crumb = some cv)
    (h2 : attempt_fetch env c1 symbols fields (some cv) mode =
      (Except.ok (b2, u2, none), c2, tr2)) :
    fetch_v7_quote_body env cache symbols fields mode =
      (Except.ok b2, c2, tr1 ++ [Event.ensureCredentials, Event.crumbRead] ++ tr2) := by
  unfold fetch_v7_quote_body
  rw [h]
  simp only [if_pos hs, hcreds, hcrumb, h2]

lemma fetch_body_retry_status {env : Env} {cache : Cache} {symbols : List String}
    {fields : Option (List String)} {mode : CacheMode} {body : Json} {url : Url} {s : Nat}
    {c1 : Cache} {tr1 : List Event} {cv : String} {b2 : Json} {u2 : Url} {s2 : Nat}
    {c2 : Cache} {tr2 : List Event}
    (h : attempt_fetch env cache symbols fields none mode =
      (Except.ok (body, url, some s), c1, tr1))
    (hs : s = 401 ∨ s = 403)
    (hcreds : env.ensureCredentials = Except.ok ())
    (hcrumb : env.crumb = some cv)
    (h2 : attempt_fetch env c1 symbols fields (some cv) mode =
      (Except.ok (b2, u2, some s2), c2, tr2)) :
    fetch_v7_quote_body env cache symbols fields mode =
      (Except.error (statusErrorSpec s2 u2.render), c2,
        tr1 ++ [Event.ensureCredentials, Event.crumbRead] ++ tr2) := by
  unfold fetch_v7_quote_body
  rw [h]
  simp only [if_pos hs, hcreds, hcrumb, h2]
  rfl

lemma attempt_fetch_cache_hit {env : Env} {cache : Cache} {symbols : List String}
    {fields : Option (List String)} {crumb : Option String} {b : Json}
    (hhit : cacheGet cache (buildUrl env.base symbols fields crumb) = some b) :
    attempt_fetch env cache symbols fields crumb CacheMode.Use =
      (Except.ok (b, buildUrl env.base symbols fields crumb, none), cache,
        [Event.attempt crumb,
         Event.cacheRead (buildUrl env.base symbols fields crumb) true]) := by
  unfold attempt_fetch
  simp [hhit]

lemma attempt_fetch_net_ok (mode : CacheMode) {env : Env} {cache : Cache}
    {symbols : List String} {fields : Option (List String)} {crumb : Option String}
    {s : Nat} {b : Json}
    (hmiss : cacheGet cache (buildUrl env.base symbols fields crumb) = none)
    (hnet : env.network (buildUrl env.base symbols fields crumb) = Except.ok (s, b))
    (h2xx : 200 ≤ s ∧ s ≤ 299) :
    (attempt_fetch env cache symbols fields crumb mode).1 =
      Except.ok (b, buildUrl env.base symbols fields crumb, none) := by
  unfold attempt_fetch netPhase
  by_cases hm : mode = CacheMode.Use <;>
    by_cases hb : mode = CacheMode.Bypass <;>
    simp [hm, hb, hmiss, hnet, h2xx, withEvents]

lemma attempt_fetch_net_status {env : Env} {cache : Cache} {symbols : List String}
    {fields : Option (List String)} {crumb : Option String} {mode : CacheMode}
    {s : Nat} {b : Json}
    (hmiss : cacheGet cache (buildUrl env.base symbols fields crumb) = none)
    (hnet : env.network (buildUrl env.base symbols fields crumb) = Except.ok (s, b))
    (hnot2xx : ¬(200 ≤ s ∧ s ≤ 299)) :
    (attempt_fetch env cache symbols fields crumb mode).1 =
      Except.ok (b, buildUrl env.base symbols fields crumb, some s) := by
  unfold attempt_fetch netPhase
  by_cases hm : mode = CacheMode.Use <;>
    simp [hm, hmiss, hnet, hnot2xx, withEvents]

lemma fetch_body_net_success_result (mode : CacheMode) {env : Env} {cache : Cache}
    {symbols : List String} {fields : Option (List String)} {s : Nat} {b : Json}
    (hmiss : cacheGet cache (buildUrl env.base symbols fields none) = none)
    (hnet : env.network (buildUrl env.base symbols fields none) = Except.ok (s, b))
    (h2xx : 200 ≤ s ∧ s ≤ 299) :
    (fetch_v7_quote_body env cache symbols fields mode).1 = Except.ok b := by
  rcases hfa : attempt_fetch env cache symbols fields none mode with ⟨r1, c1, tr1⟩
  have h1 := attempt_fetch_net_ok mode hmiss hnet h2xx
  rw [hfa] at h1
  dsimp only at h1
  subst h1
  rw [fetch_body_first_success hfa]

/-- Exhausts every path of the body fetch: at most two attempts, at most one
authenticated attempt, at most one credential refresh, at most two sends. -/
lemma fetch_body_attempt_bounds (env : Env) (cache : Cache) (symbols : List String)
    (fields : Option (List String)) (mode : CacheMode) :
    countAttempts (fetch_v7_quote_body env cache symbols fields mode).2.2 ≤ 2 ∧
    countAuthAttempts (fetch_v7_quote_body env cache symbols fields mode).2.2 ≤ 1 ∧
    countEnsures (fetch_v7_quote_body env cache symbols fields mode).2.2 ≤ 1 ∧
    countSends (fetch_v7_quote_body env cache symbols fields mode).2.2 ≤ 2 := by
  rcases hfa : attempt_fetch env cache symbols fields none mode with ⟨r1, c1, tr1⟩
  have hcnt := attempt_fetch_counts env cache symbols fields none mode
  rw [hfa] at hcnt
  dsimp only at hcnt
  simp only [Option.isSome_none, Bool.false_eq_true, if_false] at hcnt
  obtain ⟨ha1, he1, hsnd1, hau1⟩ := hcnt
  rcases r1 with e | ⟨b, u, ms⟩
  · rw [fetch_body_first_err hfa]
    dsimp only
    omega
  · rcases ms with _ | s
    · rw [fetch_body_first_success hfa]
      dsimp only
      omega
    · by_cases hs : s = 401 ∨ s = 403
      · rcases hcr : env.ensureCredentials with e | u0
        · rw [fetch_body_ensure_err hfa hs hcr]
          dsimp only
          simp [isAttemptEv, isAuthAttemptEv, isEnsureEv, isSendEv]
          omega
        · cases u0
          rcases hcrumb : env.crumb with _ | cv
          · rw [fetch_body_crumb_absent hfa hs hcr hcrumb]
            dsimp only
            simp [isAttemptEv, isAuthAttemptEv, isEnsureEv, isSendEv]
            omega
          · rcases hfa2 : attempt_fetch env c1 symbols fields (some cv) mode with
              ⟨r2, c2, tr2⟩
            have hcnt2 := attempt_fetch_counts env c1 symbols fields (some cv) mode
            rw [hfa2] at hcnt2
            dsimp only at hcnt2
            simp only [Option.isSome_some, if_true] at hcnt2
            obtain ⟨ha2, he2, hsnd2, hau2⟩ := hcnt2
            rcases r2 with e2 | ⟨b2, u2, ms2⟩
            · rw [fetch_body_retry_err hfa hs hcr hcrumb hfa2]
              dsimp only
              simp [isAttemptEv, isAuthAttemptEv, isEnsureEv, isSendEv]
              omega
            · rcases ms2 with _ | s2
              · rw [fetch_body_retry_success hfa hs hcr hcrumb hfa2]
                dsimp only
                simp [isAttemptEv, isAuthAttemptEv, isEnsureEv, isSendEv]
                omega
              · rw [fetch_body_retry_status hfa hs hcr hcrumb hfa2]
                dsimp only
                simp [isAttemptEv, isAuthAttemptEv, isEnsureEv, isSendEv]
                omega
      · rw [fetch_body_first_status_terminal hfa hs]
        dsimp only
        omega

/-- Exhausts every path of the body fetch under cache mode Bypass: the cache
is never read, never written, and its state is returned unchanged. -/
lemma fetch_body_bypass_frame (env : Env) (cache : Cache) (symbols : List String)
    (fields : Option (List String)) :
    (fetch_v7_quote_body env cache symbols fields CacheMode.Bypass).2.1 = cache ∧
    countCacheReads (fetch_v7_quote_body env cache symbols fields CacheMode.Bypass).2.2 = 0 ∧
    countCachePuts (fetch_v7_quote_body env cache symbols fields CacheMode.Bypass).2.2 = 0 := by
  rcases hfa : attempt_fetch env cache symbols fields none CacheMode.Bypass with ⟨r1, c1, tr1⟩
  have hfr := attempt_fetch_bypass_frame env cache symbols fields none
  rw [hfa] at hfr
  dsimp only at hfr
  obtain ⟨hc1, hr1, hp1⟩ := hfr
  rcases r1 with e | ⟨b, u, ms⟩
  · rw [fetch_body_first_err hfa]
    exact ⟨hc1, hr1, hp1⟩
  · rcases ms with _ | s
    · rw [fetch_body_first_success hfa]
      exact ⟨hc1, hr1, hp1⟩
    · by_cases hs : s = 401 ∨ s = 403
      · rcases hcr : env.ensureCredentials with e | u0
        · rw [fetch_body_ensure_err hfa hs hcr]
          dsimp only
          simp [isCacheReadEv, isCachePutEv, hr1, hp1, hc1]
        · cases u0
          rcases hcrumb : env.crumb with _ | cv
          · rw [fetch_body_crumb_absent hfa hs hcr hcrumb]
            dsimp only
            simp [isCacheReadEv, isCachePutEv, hr1, hp1, hc1]
          · rcases hfa2 : attempt_fetch env c1 symbols fields (some cv) CacheMode.Bypass with
              ⟨r2, c2, tr2⟩
            have hfr2 := attempt_fetch_bypass_frame env c1 symbols fields (some cv)
            rw [hfa2] at hfr2
            dsimp only at hfr2
            obtain ⟨hc2, hr2, hp2⟩ := hfr2
            rcases r2 with e2 | ⟨b2, u2, ms2⟩
            · rw [fetch_body_retry_err hfa hs hcr hcrumb hfa2]
              dsimp only
              simp [isCacheReadEv, isCachePutEv, hr1, hp1, hr2, hp2, hc2, hc1]
            · rcases ms2 with _ | s2
              · rw [fetch_body_retry_success hfa hs hcr hcrumb hfa2]
                dsimp only
                simp [isCacheReadEv, isCachePutEv, hr1, hp1, hr2, hp2, hc2, hc1]
              · rw [fetch_body_retry_status hfa hs hcr hcrumb hfa2]
                dsimp only
                simp [isCacheReadEv, isCachePutEv, hr1, hp1, hr2, hp2, hc2, hc1]
      · rw [fetch_body_first_status_terminal hfa hs]
        exact ⟨hc1, hr1, hp1⟩

lemma attempt_fetch_send_on_miss {env : Env} {cache : Cache} {symbols : List String}
    {fields : Option (List String)} {crumb : Option String} {mode : CacheMode}
    (h : cacheGet cache (buildUrl env.base symbols fields crumb) = none ∨
      mode = CacheMode.Bypass) :
    countSends (attempt_fetch env cache symbols fields crumb mode).2.2 = 1 := by
  have hnet := netPhase_trace env cache mode (buildUrl env.base symbols fields crumb)
  unfold attempt_fetch
  by_cases hm : mode = CacheMode.Use
  · have hmiss : cacheGet cache (buildUrl env.base symbols fields crumb) = none := by
      rcases h with h | h
      · exact h
      · rw [hm] at h
        exact absurd h (by simp)
    rw [if_pos hm, hmiss]
    simp only [withEvents]
    rcases hnet with h2 | h2 <;> simp [h2, isSendEv]
  · rw [if_neg hm]
    simp only [withEvents]
    rcases hnet with h2 | h2 <;> simp [h2, isSendEv]

lemma fetch_quotes_of_body {env : Env} {cache : Cache} {symbols : List String}
    {fields : Option (List String)} {mode : CacheMode} {b : Json} {cb : Cache}
    {trb : List Event}
    (hb : fetch_v7_quote_body env cache symbols fields mode = (Except.ok b, cb, trb))
    {envl : V7Envelope} (hdeser : deserEnvelope b = Except.ok envl) :
    fetch_v7_quotes env cache symbols fields mode =
      (Except.ok ((envl.quote_response.bind (fun qr => qr.result)).getD []), cb, trb) := by
  unfold fetch_v7_quotes
  rw [hb]
  simp only [hdeser]

lemma fetch_quotes_raw_of_body {env : Env} {cache : Cache} {symbols : List String}
    {fields : Option (List String)} {mode : CacheMode} {b : Json} {cb : Cache}
    {trb : List Event}
    (hb : fetch_v7_quote_body env cache symbols fields mode = (Except.ok b, cb, trb)) :
    fetch_v7_quotes_raw env cache symbols fields mode =
      (Except.ok
        ((((jsonGet b "quoteResponse").bind (fun qr => jsonGet qr "result")).bind
          jsonAsArray).getD []), cb, trb) := by
  unfold fetch_v7_quotes_raw
  rw [hb]

lemma fetch_body_net_success_tuple (mode : CacheMode) {env : Env} {cache : Cache}
    {symbols : List String} {fields : Option (List String)} {s : Nat} {b : Json}
    (hmiss : cacheGet cache (buildUrl env.base symbols fields none) = none)
    (hnet : env.network (buildUrl env.base symbols fields none) = Except.ok (s, b))
    (h2xx : 200 ≤ s ∧ s ≤ 299) :
    ∃ cb trb, fetch_v7_quote_body env cache symbols fields mode = (Except.ok b, cb, trb) := by
  rcases hb : fetch_v7_quote_body env cache symbols fields mode with ⟨rb, cb, trb⟩
  have hr := fetch_body_net_success_result mode hmiss hnet h2xx
  rw [hb] at hr
  dsimp only at hr
  subst hr
  exact ⟨cb, trb, rfl⟩

lemma fetch_quote_of_quotes {env : Env} {cache : Cache} {symbol : String}
    {mode : CacheMode} {l : List V7QuoteNode} {c : Cache} {tr : List Event}
    (hq : fetch_v7_quotes env cache [symbol] none mode = (Except.ok l, c, tr)) :
    fetch_quote env cache symbol mode =
      (match l.getLast? with
       | none =>
         (Except.error
           (YfError.MissingData ("no quote result found for symbol " ++ symbol)), c, tr)
       | some r => (Except.ok (quoteFromNode r), c, tr)) := by
  unfold fetch_quote
  rw [hq]

lemma fetch_quote_raw_of_quotes {env : Env} {cache : Cache} {symbol : String}
    {fields : Option (List String)} {mode : CacheMode} {l : List Json} {c : Cache}
    {tr : List Event}
    (hq : fetch_v7_quotes_raw env cache [symbol] fields mode = (Except.ok l, c, tr)) :
    fetch_quote_raw env cache symbol fields mode =
      (match l.getLast? with
       | none =>
         (Except.error
           (YfError.MissingData ("no quote result found for symbol " ++ symbol)), c, tr)
       | some r => (Except.ok r, c, tr)) := by
  unfold fetch_quote_raw
  rw [hq]

/-! Section: Claim theorems -/

/-- C5: Under cache mode Use, when the Cache Store holds a stored body for
the fetch's canonical key (the full request URL including query parameters),
the fetch returns that stored body immediately: no network send, no cache
write-back, and the cache state is returned unchanged. -/
theorem spec_C5 (env : Env) (cache : Cache) (symbols : List String)
    (fields : Option (List String)) (b : Json)
    (hhit : cacheGet cache (buildUrl env.base symbols fields none) = some b) :
    fetch_v7_quote_body env cache symbols fields CacheMode.Use =
      (Except.ok b, cache,
        [Event.attempt none,
         Event.cacheRead (buildUrl env.base symbols fields none) true]) ∧
    countSends (fetch_v7_quote_body env cache symbols fields CacheMode.Use).2.2 = 0 ∧
    countCachePuts (fetch_v7_quote_body env cache symbols fields CacheMode.Use).2.2 = 0 := by
  have h := fetch_body_first_success (attempt_fetch_cache_hit hhit)
  refine ⟨h, ?_, ?_⟩ <;> rw [h] <;> simp [isSendEv, isCachePutEv]

/-- C5 witness: a cache holding the canonical anonymous key returns the
stored body with no send and no write. -/
theorem spec_C5_witness :
    fetch_v7_quote_body envAuthFix cacheHitFix ["AAPL"] none CacheMode.Use =
      (Except.ok (Json.str "CACHED"), cacheHitFix,
        [Event.attempt none, Event.cacheRead urlAnonFix true]) ∧
    countSends (fetch_v7_quote_body envAuthFix cacheHitFix ["AAPL"] none
      CacheMode.Use).2.2 = 0 ∧
    countCachePuts (fetch_v7_quote_body envAuthFix cacheHitFix ["AAPL"] none
      CacheMode.Use).2.2 = 0 :=
  spec_C5 envAuthFix cacheHitFix ["AAPL"] none (Json.str "CACHED") rfl

/-- C6: Under cache mode Bypass, a fetch never reads or writes the Cache
Store, and the cache state is returned unchanged, whatever the outcome. -/
theorem spec_C6 (env : Env) (cache : Cache) (symbols : List String)
    (fields : Option (List String)) :
    (fetch_v7_quote_body env cache symbols fields CacheMode.Bypass).2.1 = cache ∧
    countCacheReads
      (fetch_v7_quote_body env cache symbols fields CacheMode.Bypass).2.2 = 0 ∧
    countCachePuts
      (fetch_v7_quote_body env cache symbols fields CacheMode.Bypass).2.2 = 0 :=
  fetch_body_bypass_frame env cache symbols fields

/-- C8: When the anonymous attempt gets 401/403, the refresh succeeds but the
crumb is still absent, the fetch terminates with exactly
Auth("Crumb is not set after ensuring credentials") and no authenticated
attempt or further send occurs. -/
theorem spec_C8 (env : Env) (cache : Cache) (symbols : List String)
    (fields : Option (List String)) (mode : CacheMode) (body : Json) (url : Url)
    (s : Nat) (c1 : Cache) (tr1 : List Event)
    (hfirst : attempt_fetch env cache symbols fields none mode =
      (Except.ok (body, url, some s), c1, tr1))
    (hs : s = 401 ∨ s = 403)
    (hcreds : env.ensureCredentials = Except.ok ())
    (hcrumb : env.crumb = none) :
    fetch_v7_quote_body env cache symbols fields mode =
      (Except.error (YfError.Auth "Crumb is not set after ensuring credentials"), c1,
        tr1 ++ [Event.ensureCredentials, Event.crumbRead]) ∧
    countAuthAttempts (fetch_v7_quote_body env cache symbols fields mode).2.2 = 0 ∧
    countSends (fetch_v7_quote_body env cache symbols fields mode).2.2 = countSends tr1 := by
  have h := fetch_body_crumb_absent hfirst hs hcreds hcrumb
  have hcnt := attempt_fetch_counts env cache symbols fields none mode
  rw [hfirst] at hcnt
  dsimp only at hcnt
  simp only [Option.isSome_none, Bool.false_eq_true, if_false] at hcnt
  refine ⟨h, ?_, ?_⟩ <;> rw [h] <;>
    simp [isAuthAttemptEv, isSendEv, isEnsureEv, hcnt.2.2.2]

/-- C8 witness: a 403 answer with a still-absent crumb after refresh. -/
theorem spec_C8_witness :
    fetch_v7_quote_body envNoCrumbFix [] ["AAPL"] none CacheMode.Use =
      (Except.error (YfError.Auth "Crumb is not set after ensuring credentials"), [],
        [Event.attempt none, Event.cacheRead urlAnonFix false, Event.send urlAnonFix] ++
          [Event.ensureCredentials, Event.crumbRead]) ∧
    countAuthAttempts (fetch_v7_quote_body envNoCrumbFix [] ["AAPL"] none
      CacheMode.Use).2.2 = 0 ∧
    countSends (fetch_v7_quote_body envNoCrumbFix [] ["AAPL"] none CacheMode.Use).2.2 =
      countSends [Event.attempt none, Event.cacheRead urlAnonFix false,
        Event.send urlAnonFix] :=
  spec_C8 envNoCrumbFix [] ["AAPL"] none CacheMode.Use Json.null urlAnonFix 403 []
    [Event.attempt none, Event.cacheRead urlAnonFix false, Event.send urlAnonFix]
    rfl (Or.inr rfl) rfl rfl

/-- C1: A 401/403 anonymous response, followed by a successful refresh with a
crumb present, yields exactly one credential refresh and exactly one
authenticated attempt; exactly two attempts and at most two sends occur in
the whole fetch, whatever the second attempt's outcome — in particular a
second 401/403 never triggers another refresh. -/
theorem spec_C1 (env : Env) (cache : Cache) (symbols : List String)
    (fields : Option (List String)) (mode : CacheMode) (body : Json) (url : Url)
    (s : Nat) (c1 : Cache) (tr1 : List Event) (cv : String)
    (hfirst : attempt_fetch env cache symbols fields none mode =
      (Except.ok (body, url, some s), c1, tr1))
    (hs : s = 401 ∨ s = 403)
    (hcreds : env.ensureCredentials = Except.ok ())
    (hcrumb : env.crumb = some cv) :
    countEnsures (fetch_v7_quote_body env cache symbols fields mode).2.2 = 1 ∧
    countAttempts (fetch_v7_quote_body env cache symbols fields mode).2.2 = 2 ∧
    countAuthAttempts (fetch_v7_quote_body env cache symbols fields mode).2.2 = 1 ∧
    countSends (fetch_v7_quote_body env cache symbols fields mode).2.2 ≤ 2 := by
  have hcnt := attempt_fetch_counts env cache symbols fields none mode
  rw [hfirst] at hcnt
  dsimp only at hcnt
  simp only [Option.isSome_none, Bool.false_eq_true, if_false] at hcnt
  obtain ⟨ha1, he1, hsnd1, hau1⟩ := hcnt
  rcases hfa2 : attempt_fetch env c1 symbols fields (some cv) mode with ⟨r2, c2, tr2⟩
  have hcnt2 := attempt_fetch_counts env c1 symbols fields (some cv) mode
  rw [hfa2] at hcnt2
  dsimp only at hcnt2
  simp only [Option.isSome_some, if_pos] at hcnt2
  obtain ⟨ha2, he2, hsnd2, hau2⟩ := hcnt2
  have htr : (fetch_v7_quote_body env cache symbols fields mode).2.2 =
      tr1 ++ [Event.ensureCredentials, Event.crumbRead] ++ tr2 := by
    rcases r2 with e2 | ⟨b2, u2, ms2⟩
    · rw [fetch_body_retry_err hfirst hs hcreds hcrumb hfa2]
    · rcases ms2 with _ | s2
      · rw [fetch_body_retry_success hfirst hs hcreds hcrumb hfa2]
      · rw [fetch_body_retry_status hfirst hs hcreds hcrumb hfa2]
  rw [htr]
  simp [isEnsureEv, isAttemptEv, isAuthAttemptEv, isSendEv, ha1, he1, hau1, ha2, he2, hau2]
  omega

/-- C1 witness: a 401 answer on every send, refresh succeeding with a crumb:
one refresh, two attempts of which one authenticated, two sends. -/
theorem spec_C1_witness :
    countEnsures (fetch_v7_quote_body envAuthFix [] ["AAPL"] none CacheMode.Use).2.2 = 1 ∧
    countAttempts (fetch_v7_quote_body envAuthFix [] ["AAPL"] none CacheMode.Use).2.2 = 2 ∧
    countAuthAttempts
      (fetch_v7_quote_body envAuthFix [] ["AAPL"] none CacheMode.Use).2.2 = 1 ∧
    countSends (fetch_v7_quote_body envAuthFix [] ["AAPL"] none CacheMode.Use).2.2 ≤ 2 :=
  spec_C1 envAuthFix [] ["AAPL"] none CacheMode.Use Json.null urlAnonFix 401 []
    [Event.attempt none, Event.cacheRead urlAnonFix false, Event.send urlAnonFix] "abc"
    rfl (Or.inl rfl) rfl rfl

/-- C2 counterexample: with a body stored under the crumb-bearing canonical
key, a fetch under cache mode Use whose anonymous attempt gets 401 serves the
authenticated attempt from the Cache Store: one authenticated attempt occurs
but the only network send is the anonymous one, and the fetch returns the
cached body. -/
theorem spec_C2_counterexample :
    (fetch_v7_quote_body envAuthFix cacheCrumbFix ["AAPL"] none CacheMode.Use).1 =
      Except.ok (Json.str "CACHED") ∧
    countAuthAttempts
      (fetch_v7_quote_body envAuthFix cacheCrumbFix ["AAPL"] none CacheMode.Use).2.2 = 1 ∧
    countSends
      (fetch_v7_quote_body envAuthFix cacheCrumbFix ["AAPL"] none CacheMode.Use).2.2 = 1 ∧
    (fetch_v7_quote_body envAuthFix cacheCrumbFix ["AAPL"] none CacheMode.Use).2.2 =
      [Event.attempt none, Event.cacheRead urlAnonFix false, Event.send urlAnonFix,
       Event.ensureCredentials, Event.crumbRead, Event.attempt (some "abc"),
       Event.cacheRead urlCrumbFix true] :=
  ⟨rfl, rfl, rfl, rfl⟩

/-- C2 (amended): The authenticated retry consults the Cache Store again
under cache mode Use, keyed by the crumb-bearing canonical URL: when that
exact key holds a stored body the retry is served from the cache with no
further network send, and only when the key is absent (or the mode is
Bypass) does the retry perform the network send. -/
theorem spec_C2 (env : Env) (cache : Cache) (symbols : List String)
    (fields : Option (List String)) (mode : CacheMode) (body : Json) (url : Url)
    (s : Nat) (c1 : Cache) (tr1 : List Event) (cv : String)
    (hfirst : attempt_fetch env cache symbols fields none mode =
      (Except.ok (body, url, some s), c1, tr1))
    (hs : s = 401 ∨ s = 403)
    (hcreds : env.ensureCredentials = Except.ok ())
    (hcrumb : env.crumb = some cv) :
    (∀ b, mode = CacheMode.Use →
      cacheGet c1 (buildUrl env.base symbols fields (some cv)) = some b →
      (fetch_v7_quote_body env cache symbols fields mode).1 = Except.ok b ∧
      countSends (fetch_v7_quote_body env cache symbols fields mode).2.2 =
        countSends tr1) ∧
    (cacheGet c1 (buildUrl env.base symbols fields (some cv)) = none ∨
        mode = CacheMode.Bypass →
      countSends (fetch_v7_quote_body env cache symbols fields mode).2.2 =
        countSends tr1 + 1) := by
  constructor
  · intro b hmode hhit
    subst hmode
    have h2 := attempt_fetch_cache_hit hhit
    have h := fetch_body_retry_success hfirst hs hcreds hcrumb h2
    rw [h]
    simp [isSendEv]
  · intro hmiss
    have hsnd2 := attempt_fetch_send_on_miss hmiss
    rcases hfa2 : attempt_fetch env c1 symbols fields (some cv) mode with ⟨r2, c2, tr2⟩
    rw [hfa2] at hsnd2
    dsimp only at hsnd2
    have htr : (fetch_v7_quote_body env cache symbols fields mode).2.2 =
        tr1 ++ [Event.ensureCredentials, Event.crumbRead] ++ tr2 := by
      rcases r2 with e2 | ⟨b2, u2, ms2⟩
      · rw [fetch_body_retry_err hfirst hs hcreds hcrumb hfa2]
      · rcases ms2 with _ | s2
        · rw [fetch_body_retry_success hfirst hs hcreds hcrumb hfa2]
        · rw [fetch_body_retry_status hfirst hs hcreds hcrumb hfa2]
    rw [htr]
    simp [isSendEv, hsnd2]

/-- C2 amended-claim witness: the cache-hit branch at the concrete input of
the counterexample. -/
theorem spec_C2_witness :
    (fetch_v7_quote_body envAuthFix cacheCrumbFix ["AAPL"] none CacheMode.Use).1 =
      Except.ok (Json.str "CACHED") ∧
    countSends
      (fetch_v7_quote_body envAuthFix cacheCrumbFix ["AAPL"] none CacheMode.Use).2.2 =
      countSends [Event.attempt none, Event.cacheRead urlAnonFix false,
        Event.send urlAnonFix] :=
  (spec_C2 envAuthFix cacheCrumbFix ["AAPL"] none CacheMode.Use Json.null urlAnonFix 401
    cacheCrumbFix
    [Event.attempt none, Event.cacheRead urlAnonFix false, Event.send urlAnonFix] "abc"
    rfl (Or.inl rfl) rfl rfl).1 (Json.str "CACHED") rfl rfl

/-- C3: Every terminal non-2xx status is classified by the same mapping at
both occurrences — 404 → NotFound, 429 → RateLimited, 500–599 →
ServerError(status), otherwise Status(status) — and the error carries the
canonical URL string of the request of the attempt that failed. -/
theorem spec_C3 (env : Env) (cache : Cache) (symbols : List String)
    (fields : Option (List String)) (mode : CacheMode) (body : Json) (url : Url)
    (s : Nat) (c1 : Cache) (tr1 : List Event)
    (hfirst : attempt_fetch env cache symbols fields none mode =
      (Except.ok (body, url, some s), c1, tr1)) :
    (¬(s = 401 ∨ s = 403) →
      (fetch_v7_quote_body env cache symbols fields mode).1 =
        Except.error (statusErrorSpec s (buildUrl env.base symbols fields none).render)) ∧
    (∀ cv b2 u2 s2 c2 tr2,
      s = 401 ∨ s = 403 →
      env.ensureCredentials = Except.ok () →
      env.crumb = some cv →
      attempt_fetch env c1 symbols fields (some cv) mode =
        (Except.ok (b2, u2, some s2), c2, tr2) →
      (fetch_v7_quote_body env cache symbols fields mode).1 =
        Except.error
          (statusErrorSpec s2 (buildUrl env.base symbols fields (some cv)).render)) := by
  have hurl : url = buildUrl env.base symbols fields none :=
    attempt_fetch_ok_url (by rw [hfirst])
  subst hurl
  constructor
  · intro hns
    rw [fetch_body_first_status_terminal hfirst hns]
  · intro cv b2 u2 s2 c2 tr2 hs hcreds hcrumb h2
    have hurl2 : u2 = buildUrl env.base symbols fields (some cv) :=
      attempt_fetch_ok_url (by rw [h2])
    subst hurl2
    rw [fetch_body_retry_status hfirst hs hcreds hcrumb h2]

/-- C3 witness: a 500 at the anonymous attempt and a 418 at the authenticated
attempt, classified by the spec mapping with the canonical URL attached. -/
theorem spec_C3_witness :
    (fetch_v7_quote_body envErr500Fix [] ["AAPL"] none CacheMode.Bypass).1 =
      Except.error (statusErrorSpec 500 urlAnonFix.render) ∧
    (fetch_v7_quote_body envRetry418Fix [] ["AAPL"] none CacheMode.Bypass).1 =
      Except.error (statusErrorSpec 418 urlCrumbFix.render) :=
  ⟨(spec_C3 envErr500Fix [] ["AAPL"] none CacheMode.Bypass Json.null urlAnonFix 500 []
      [Event.attempt none, Event.send urlAnonFix] rfl).1 (by decide),
   (spec_C3 envRetry418Fix [] ["AAPL"] none CacheMode.Bypass Json.null urlAnonFix 401 []
      [Event.attempt none, Event.send urlAnonFix] rfl).2 "abc" Json.null urlCrumbFix 418
      [] [Event.attempt (some "abc"), Event.send urlCrumbFix] (Or.inl rfl) rfl rfl rfl⟩

/-- C9: The wire-to-domain conversion resolves the exchange from the first
present value among full exchange name, short exchange code, market
identifier and market-cap-figure exchange, in that order; later fields are
ignored whenever an earlier one is present and values are never combined. -/
theorem spec_C9 (n : V7QuoteNode) :
    (quoteFromNode n).exchange = string_to_exchange (exchangeResolutionSpec n) ∧
    (∀ v, n.full_exchange_name = some v →
      (quoteFromNode n).exchange = string_to_exchange (some v)) ∧
    (∀ v, n.full_exchange_name = none → n.exchange = some v →
      (quoteFromNode n).exchange = string_to_exchange (some v)) ∧
    (∀ v, n.full_exchange_name = none → n.exchange = none → n.market = some v →
      (quoteFromNode n).exchange = string_to_exchange (some v)) ∧
    (n.full_exchange_name = none → n.exchange = none → n.market = none →
      (quoteFromNode n).exchange = string_to_exchange n.market_cap_figure_exchange) := by
  rcases n with ⟨sym, sn, p, pc, cur, fe, ex, mk, mcf, ms⟩
  refine ⟨?_, ?_, ?_, ?_, ?_⟩
  · cases fe <;> cases ex <;> cases mk <;>
      simp [quoteFromNode, exchangeResolutionSpec, Option.or]
  · intro v h
    cases h
    simp [quoteFromNode, Option.or]
  · intro v h1 h2
    cases h1
    cases h2
    simp [quoteFromNode, Option.or]
  · intro v h1 h2 h3
    cases h1
    cases h2
    cases h3
    simp [quoteFromNode, Option.or]
  · intro h1 h2 h3
    cases h1
    cases h2
    cases h3
    simp [quoteFromNode, Option.or]

/-- C9 witness: with both fullExchangeName = NasdaqGS and exchange = NMS,
the exchange resolves from the full exchange name only. -/
theorem spec_C9_witness :
    (quoteFromNode nodeExchFix).exchange = string_to_exchange (some "NasdaqGS") :=
  (spec_C9 nodeExchFix).2.1 "NasdaqGS" rfl

/-- C4: For every non-empty symbol set and cache mode, a 2xx response yields
the sequence parsed from the body's quoteResponse.result, and the empty
sequence (not an error) when the envelope or its result field is absent or
null — for the typed and the raw variant. -/
theorem spec_C4 (env : Env) (cache : Cache) (symbols : List String)
    (fields : Option (List String)) (mode : CacheMode) (s : Nat) (b : Json)
    (hne : symbols ≠ [])
    (hmiss : cacheGet cache (buildUrl env.base symbols fields none) = none)
    (hnet : env.network (buildUrl env.base symbols fields none) = Except.ok (s, b))
    (h2xx : 200 ≤ s ∧ s ≤ 299) :
    (∀ envl, deserEnvelope b = Except.ok envl →
      (fetch_v7_quotes env cache symbols fields mode).1 =
        Except.ok ((envl.quote_response.bind (fun qr => qr.result)).getD [])) ∧
    ((fetch_v7_quotes_raw env cache symbols fields mode).1 =
      Except.ok
        ((((jsonGet b "quoteResponse").bind (fun qr => jsonGet qr "result")).bind
          jsonAsArray).getD [])) ∧
    (deserEnvelope b = Except.ok ⟨none⟩ →
      (fetch_v7_quotes env cache symbols fields mode).1 = Except.ok []) ∧
    (∀ e0, deserEnvelope b = Except.ok ⟨some ⟨none, e0⟩⟩ →
      (fetch_v7_quotes env cache symbols fields mode).1 = Except.ok []) ∧
    (jsonGet b "quoteResponse" = none →
      (fetch_v7_quotes_raw env cache symbols fields mode).1 = Except.ok []) ∧
    (jsonGet b "quoteResponse" = some Json.null →
      (fetch_v7_quotes_raw env cache symbols fields mode).1 = Except.ok []) := by
  obtain ⟨cb, trb, hb⟩ := fetch_body_net_success_tuple mode hmiss hnet h2xx
  refine ⟨?_, ?_, ?_, ?_, ?_, ?_⟩
  · intro envl hdeser
    rw [fetch_quotes_of_body hb hdeser]
  · rw [fetch_quotes_raw_of_body hb]
  · intro hdeser
    rw [fetch_quotes_of_body hb hdeser]
    rfl
  · intro e0 hdeser
    rw [fetch_quotes_of_body hb hdeser]
    rfl
  · intro hq
    rw [fetch_quotes_raw_of_body hb, hq]
    rfl
  · intro hq
    rw [fetch_quotes_raw_of_body hb, hq]
    rfl

/-- C4 witness: a populated quoteResponse.result is returned as parsed, and a
body with no quoteResponse yields the empty sequence, in both variants. -/
theorem spec_C4_witness :
    (fetch_v7_quotes envOkFix [] ["AAPL"] none CacheMode.Bypass).1 =
      Except.ok [nodeFix] ∧
    (fetch_v7_quotes_raw envOkFix [] ["AAPL"] none CacheMode.Bypass).1 =
      Except.ok [nodeJsonFix] ∧
    (fetch_v7_quotes envEmptyEnvFix [] ["AAPL"] none CacheMode.Bypass).1 =
      Except.ok [] ∧
    (fetch_v7_quotes_raw envEmptyEnvFix [] ["AAPL"] none CacheMode.Bypass).1 =
      Except.ok [] :=
  ⟨(spec_C4 envOkFix [] ["AAPL"] none CacheMode.Bypass 200 bodyOkFix (by simp) rfl rfl
      (by decide)).1 ⟨some ⟨some [nodeFix], some Json.null⟩⟩ rfl,
   (spec_C4 envOkFix [] ["AAPL"] none CacheMode.Bypass 200 bodyOkFix (by simp) rfl rfl
      (by decide)).2.1,
   (spec_C4 envEmptyEnvFix [] ["AAPL"] none CacheMode.Bypass 200 bodyEmptyEnvFix
      (by simp) rfl rfl (by decide)).2.2.1 rfl,
   (spec_C4 envEmptyEnvFix [] ["AAPL"] none CacheMode.Bypass 200 bodyEmptyEnvFix
      (by simp) rfl rfl (by decide)).2.2.2.2.1 rfl⟩

/-- C7: A single-symbol fetch whose 2xx response parses to an empty result
sequence fails with MissingData naming the symbol, in the typed and the raw
variant. -/
theorem spec_C7 (env : Env) (cache : Cache) (symbol : String)
    (fieldsR : Option (List String)) (mode : CacheMode) (s : Nat) (b : Json)
    (sR : Nat) (bR : Json) (envl : V7Envelope)
    (hmiss : cacheGet cache (buildUrl env.base [symbol] none none) = none)
    (hnet : env.network (buildUrl env.base [symbol] none none) = Except.ok (s, b))
    (h2xx : 200 ≤ s ∧ s ≤ 299)
    (hdeser : deserEnvelope b = Except.ok envl)
    (hempty : (envl.quote_response.bind (fun qr => qr.result)).getD [] = [])
    (hmissR : cacheGet cache (buildUrl env.base [symbol] fieldsR none) = none)
    (hnetR : env.network (buildUrl env.base [symbol] fieldsR none) = Except.ok (sR, bR))
    (h2xxR : 200 ≤ sR ∧ sR ≤ 299)
    (hemptyR : (((jsonGet bR "quoteResponse").bind (fun qr => jsonGet qr "result")).bind
      jsonAsArray).getD [] = []) :
    (fetch_quote env cache symbol mode).1 =
      Except.error
        (YfError.MissingData ("no quote result found for symbol " ++ symbol)) ∧
    (fetch_quote_raw env cache symbol fieldsR mode).1 =
      Except.error
        (YfError.MissingData ("no quote result found for symbol " ++ symbol)) := by
  obtain ⟨cb, trb, hb⟩ := fetch_body_net_success_tuple mode hmiss hnet h2xx
  obtain ⟨cbR, trbR, hbR⟩ := fetch_body_net_success_tuple mode hmissR hnetR h2xxR
  constructor
  · have hq := fetch_quotes_of_body hb hdeser
    rw [hempty] at hq
    rw [fetch_quote_of_quotes hq]
    rfl
  · have hq := fetch_quotes_raw_of_body hbR
    rw [hemptyR] at hq
    rw [fetch_quote_raw_of_quotes hq]
    rfl

/-- C7 witness: a 2xx body with an empty result array makes the single-symbol
lookup fail with MissingData naming AAPL, in both variants. -/
theorem spec_C7_witness :
    (fetch_quote envEmptyResFix [] "AAPL" CacheMode.Bypass).1 =
      Except.error
        (YfError.MissingData ("no quote result found for symbol " ++ "AAPL")) ∧
    (fetch_quote_raw envEmptyResFix [] "AAPL" none CacheMode.Bypass).1 =
      Except.error
        (YfError.MissingData ("no quote result found for symbol " ++ "AAPL")) :=
  spec_C7 envEmptyResFix [] "AAPL" none CacheMode.Bypass 200 bodyEmptyResFix 200
    bodyEmptyResFix ⟨some ⟨some [], some Json.null⟩⟩ rfl rfl (by decide) rfl rfl rfl rfl
    (by decide) rfl

/-- C10: A single-symbol fetch whose 2xx response holds more than one record
returns the last record of the result array, in the typed and the raw
variant. -/
theorem spec_C10 (env : Env) (cache : Cache) (symbol : String)
    (fieldsR : Option (List String)) (mode : CacheMode) (s : Nat) (b : Json)
    (sR : Nat) (bR : Json) (envl : V7Envelope) (l : List V7QuoteNode) (rl : List Json)
    (hmiss : cacheGet cache (buildUrl env.base [symbol] none none) = none)
    (hnet : env.network (buildUrl env.base [symbol] none none) = Except.ok (s, b))
    (h2xx : 200 ≤ s ∧ s ≤ 299)
    (hdeser : deserEnvelope b = Except.ok envl)
    (hlist : (envl.quote_response.bind (fun qr => qr.result)).getD [] = l)
    (hlen : 2 ≤ l.length)
    (hmissR : cacheGet cache (buildUrl env.base [symbol] fieldsR none) = none)
    (hnetR : env.network (buildUrl env.base [symbol] fieldsR none) = Except.ok (sR, bR))
    (h2xxR : 200 ≤ sR ∧ sR ≤ 299)
    (hlistR : (((jsonGet bR "quoteResponse").bind (fun qr => jsonGet qr "result")).bind
      jsonAsArray).getD [] = rl)
    (hlenR : 2 ≤ rl.length) :
    (∀ x, l.getLast? = some x →
      (fetch_quote env cache symbol mode).1 = Except.ok (quoteFromNode x)) ∧
    (∀ y, rl.getLast? = some y →
      (fetch_quote_raw env cache symbol fieldsR mode).1 = Except.ok y) := by
  obtain ⟨cb, trb, hb⟩ := fetch_body_net_success_tuple mode hmiss hnet h2xx
  obtain ⟨cbR, trbR, hbR⟩ := fetch_body_net_success_tuple mode hmissR hnetR h2xxR
  constructor
  · intro x hx
    have hq := fetch_quotes_of_body hb hdeser
    rw [hlist] at hq
    rw [fetch_quote_of_quotes hq, hx]
  · intro y hy
    have hq := fetch_quotes_raw_of_body hbR
    rw [hlistR] at hq
    rw [fetch_quote_raw_of_quotes hq, hy]

/-- C10 witness: with two records AAPL then MSFT, the single-symbol fetch
returns the MSFT record (the last), in both variants. -/
theorem spec_C10_witness :
    (fetch_quote envTwoFix [] "AAPL" CacheMode.Bypass).1 =
      Except.ok (quoteFromNode node2Fix) ∧
    (fetch_quote_raw envTwoFix [] "AAPL" none CacheMode.Bypass).1 =
      Except.ok nodeJson2Fix :=
  ⟨(spec_C10 envTwoFix [] "AAPL" none CacheMode.Bypass 200 bodyTwoFix 200 bodyTwoFix
      ⟨some ⟨some [nodeFix, node2Fix], some Json.null⟩⟩ [nodeFix, node2Fix]
      [nodeJsonFix, nodeJson2Fix] rfl rfl (by decide) rfl rfl (by decide) rfl rfl
      (by decide) rfl (by decide)).1 node2Fix rfl,
   (spec_C10 envTwoFix [] "AAPL" none CacheMode.Bypass 200 bodyTwoFix 200 bodyTwoFix
      ⟨some ⟨some [nodeFix, node2Fix], some Json.null⟩⟩ [nodeFix, node2Fix]
      [nodeJsonFix, nodeJson2Fix] rfl rfl (by decide) rfl rfl (by decide) rfl rfl
      (by decide) rfl (by decide)).2 nodeJson2Fix rfl⟩

end YF
